import Mathlib

/-!
Verification of the frame-acquisition / single-flight polling core of the
face-recognition web client (`src/App.js`).

The JavaScript source is shallowly embedded:
* numeric arithmetic (JS doubles on small integers and simple divisions) is
  modelled over `ℚ`;
* `Math.round` is modelled as `⌊x + 1/2⌋` (round half toward +∞, which is
  JS semantics for the non-negative values arising here);
* JSON payloads are modelled by the inductive `JValue`;
* React state updates of one `runLoop` cycle are modelled as a pure state
  transformer `runCycle` over `ScanState`, with the two suspension points
  (frame capture, `fetch`) resolved by an environment `CycleEnv`, and the
  request lifetime exposed as an event trace;
* string formatting of derived overlay keys (template literals) is modelled
  by the injective constructor `RenderKey.coords` instead of string
  concatenation.
-/

namespace FaceRec

/-- Constant `POLL_DELAY_MS` (App.js line 4). -/
def POLL_DELAY_MS : ℕ := 350

/-- Constant `MAX_FRAME_WIDTH` (App.js line 5). -/
def MAX_FRAME_WIDTH : ℚ := 640

/-- Constant `MAX_FRAME_HEIGHT` (App.js line 6). -/
def MAX_FRAME_HEIGHT : ℚ := 640

/-! ## Status styling (App.js lines 9-12) -/

/-- The emerald class string returned for `code === 200`. -/
def emeraldClasses : String := "border-emerald-500 bg-emerald-500/10 text-emerald-400"

/-- The sky class string returned for every other code. -/
def skyClasses : String := "border-sky-500 bg-sky-500/10 text-sky-300"

/-- Function `statusClasses` (App.js lines 9-12): `code === 200 ? emerald : sky`.
A missing/`null` `status_code` is `none`; JS strict equality with
`undefined`/`null` against the number `200` is `false`. -/
def statusClasses (code : Option ℤ) : String :=
  if code = some 200 then emeraldClasses else skyClasses

/-! ## Frame encoder scaling (App.js lines 88-94) -/

/-- JS `Math.round` for the non-negative reals arising here: `⌊x + 1/2⌋`. -/
def jsRound (q : ℚ) : ℤ := ⌊q + 1 / 2⌋

/-- The scale factor computed by `captureFrame` (App.js lines 88-92):
`Math.min(1, MAX_FRAME_WIDTH / videoWidth, MAX_FRAME_HEIGHT / videoHeight)`. -/
def captureScale (w h : ℕ) : ℚ :=
  min 1 (min (MAX_FRAME_WIDTH / (w : ℚ)) (MAX_FRAME_HEIGHT / (h : ℚ)))

/-- Computation `targetWidth = Math.round(video.videoWidth * scale)` (App.js line 93). -/
def targetWidth (w h : ℕ) : ℤ := jsRound ((w : ℚ) * captureScale w h)

/-- Computation `targetHeight = Math.round(video.videoHeight * scale)` (App.js line 94). -/
def targetHeight (w h : ℕ) : ℤ := jsRound ((h : ℚ) * captureScale w h)

/-! ## Detection data model (server wire contract, consumed by `boxes` and
the recognition log) -/

/-- Field `bbox: x_min, y_min, x_max, y_max` of a detection. -/
structure Bbox where
  x_min : ℚ
  y_min : ℚ
  x_max : ℚ
  y_max : ℚ
deriving Repr, DecidableEq

/-- Field `entity?: label, user_id` of a detection. -/
structure Entity where
  label : Option String
  user_id : Option ℤ
deriving Repr, DecidableEq

/-- One detection object of the response's `data` array; every field may be
absent on the wire. -/
structure DMatch where
  id : Option String
  bbox : Option Bbox
  entity : Option Entity
  status_code : Option ℤ
  distance : Option ℚ
deriving Repr, DecidableEq

/-- State `videoSize`: native/encoded dimensions last reported. -/
structure VideoSize where
  width : ℕ
  height : ℕ
deriving Repr, DecidableEq

/-- The rendering key of a list entry.  `server s` abstracts the raw server
id string, `coords x y` abstracts the template-literal string
`x_min-y_min`; the two constructors keep the provenance distinguishable. -/
inductive RenderKey where
  | server (s : String)
  | coords (x y : ℚ)
deriving Repr, DecidableEq

/-- Overlay key (App.js line 218): `match.id ?? x_min-y_min`. -/
def overlayKey (m : DMatch) (bounds : Bbox) : RenderKey :=
  match m.id with
  | some s => RenderKey.server s
  | none => RenderKey.coords bounds.x_min bounds.y_min

/-- Recognition-log key (App.js line 346): `key={match.id}`, no defaulting. -/
def logKey (m : DMatch) : Option String := m.id

/-- The percentage style strings of one overlay box (App.js lines 220-225),
kept as the underlying rationals (the source renders them as `"…%"`). -/
structure BoxStyle where
  left : ℚ
  top : ℚ
  width : ℚ
  height : ℚ
deriving Repr, DecidableEq

/-- One element of the `boxes` array (App.js lines 217-228). -/
structure OverlayBox where
  id : RenderKey
  label : Option String
  style : BoxStyle
  status_code : Option ℤ
  distance : Option ℚ
deriving Repr, DecidableEq

/-- The body of `matches.map` inside `boxes` (App.js lines 210-229): `null`
(here `none`) when the match has no `bbox`, otherwise the overlay record. -/
def projectMatch (videoSize : VideoSize) (m : DMatch) : Option OverlayBox :=
  match m.bbox with
  | none => none
  | some bounds =>
      let width := bounds.x_max - bounds.x_min
      let height := bounds.y_max - bounds.y_min
      some
        { id := overlayKey m bounds
          label := m.entity.bind Entity.label
          style :=
            { left := bounds.x_min / (videoSize.width : ℚ) * 100
              top := bounds.y_min / (videoSize.height : ℚ) * 100
              width := width / (videoSize.width : ℚ) * 100
              height := height / (videoSize.height : ℚ) * 100 }
          status_code := m.status_code
          distance := m.distance }

/-- Function `boxes` (App.js lines 206-231): empty when either dimension is falsy,
otherwise map-then-`filter(Boolean)`, i.e. `filterMap`. -/
def boxes (matchList : List DMatch) (videoSize : VideoSize) : List OverlayBox :=
  if videoSize.width = 0 ∨ videoSize.height = 0 then []
  else matchList.filterMap (projectMatch videoSize)

/-! ## JSON payloads and response parsing (App.js lines 164-165) -/

/-- A parsed JSON value, the result of `response.json()`. -/
inductive JValue where
  | jnull : JValue
  | jbool (b : Bool) : JValue
  | jnum (q : ℚ) : JValue
  | jstr (s : String) : JValue
  | jarr (xs : List JValue) : JValue
  | jobj (fields : List (String × JValue)) : JValue

/-- First-match association lookup on a JS object's fields. -/
def lookupField : List (String × JValue) → String → Option JValue
  | [], _ => none
  | (k, v) :: rest, key => if k = key then some v else lookupField rest key

/-- Access `payload?.data`: `none` models JS `undefined` (payload not an object,
or no `data` field). -/
def getData : JValue → Option JValue
  | JValue.jobj fields => lookupField fields "data"
  | _ => none

/-- Expression `Array.isArray(payload?.data) ? payload.data : []` (App.js line 165):
the detection batch stored into `matches`, kept as raw JSON objects just as
the source stores the raw `data` elements. -/
def matchesOfPayload (payload : JValue) : List JValue :=
  match getData payload with
  | some (JValue.jarr xs) => xs
  | _ => []

/-! ## Poll loop controller (App.js lines 125-191) -/

/-- The React state and ref cells touched by the scanning effect:
`loopTimer` models `loopRef.current` being a live timer handle and
`abortCtrl` models `abortRef.current` holding the controller of cycle `n`. -/
structure ScanState where
  streamReady : Bool
  isScanning : Bool
  isProcessing : Bool
  feedback : String
  «matches» : List JValue
  videoSize : VideoSize
  lastUpdated : Option ℕ
  latency : Option ℚ
  loopTimer : Bool
  abortCtrl : Option ℕ

/-- Resolution of the `captureFrame()` await: the frame's scaled dimensions
on success (the blob itself is irrelevant to the state machine), or the
rejection message (`NotReady` / `EncodingUnavailable` / blob failure). -/
inductive CaptureOutcome where
  | ok (width height : ℕ)
  | failure (msg : String)
deriving Repr, DecidableEq

/-- Resolution of the `fetch` await: an HTTP response with parsed JSON body,
an `AbortError` rejection, or any other rejection (network failure). -/
inductive FetchOutcome where
  | response (status : ℕ) (payload : JValue)
  | abortError
  | networkError (msg : String)

/-- The environment of one cycle: how its two awaits resolve, the measured
latency `performance.now() - startTime`, and the completion wall clock. -/
structure CycleEnv where
  capture : CaptureOutcome
  fetch : FetchOutcome
  elapsed : ℚ
  now : ℕ

/-- Predicate `response.ok`: status in the inclusive range 200-299. -/
def statusOk (status : ℕ) : Bool := 200 ≤ status && status < 300

/-- The message of the error thrown on a non-ok response (App.js line 161). -/
def httpErrorMessage (status : ℕ) : String :=
  "Recognition request failed with " ++ toString status

/-- Request-lifetime events of cycle `n`: the `fetch` being issued and the
same `fetch` settling (resolving or rejecting). -/
inductive ReqEvent where
  | start (n : ℕ)
  | settle (n : ℕ)
deriving Repr, DecidableEq

/-- The `finally` block (App.js lines 172-177): clear `isProcessing`, and
when neither cancelled nor stopped, register exactly one new timer of
`POLL_DELAY_MS`; the returned option is the delay of that timer. -/
def finallyStep (cancelledEnd : Bool) (st : ScanState) : ScanState × Option ℕ :=
  let st := { st with isProcessing := false }
  if !cancelledEnd && st.isScanning then
    ({ st with loopTimer := true }, some POLL_DELAY_MS)
  else (st, none)

/-- One `runLoop` invocation (App.js lines 139-178) as a pure transformer.
`n` numbers the cycle, `cancelledStart` is the closure flag at the line-140
guard, `cancelledEnd` its value when the `finally` block runs (cleanup may
flip it while an await is suspended).  Returns the new state, the request
events of this cycle, and the delay of the timer registered in `finally`
(if any). -/
def runCycle (n : ℕ) (cancelledStart cancelledEnd : Bool) (env : CycleEnv)
    (st : ScanState) : ScanState × List ReqEvent × Option ℕ :=
  if cancelledStart || !st.isScanning then (st, [], none)
  else
    let st := { st with isProcessing := true }
    match env.capture with
    | CaptureOutcome.failure msg =>
        -- `captureFrame` rejected: no fetch; `catch` surfaces the message
        let st := { st with feedback := msg }
        let r := finallyStep cancelledEnd st
        (r.1, [], r.2)
    | CaptureOutcome.ok w h =>
        let st := { st with videoSize := { width := w, height := h } }
        let st := { st with abortCtrl := some n }
        match env.fetch with
        | FetchOutcome.abortError =>
            -- `catch` sees `AbortError` and returns before `setFeedback`
            let r := finallyStep cancelledEnd st
            (r.1, [ReqEvent.start n, ReqEvent.settle n], r.2)
        | FetchOutcome.networkError msg =>
            let st := { st with feedback := msg }
            let r := finallyStep cancelledEnd st
            (r.1, [ReqEvent.start n, ReqEvent.settle n], r.2)
        | FetchOutcome.response status payload =>
            if statusOk status then
              let st := { st with
                «matches» := matchesOfPayload payload
                latency := some env.elapsed
                lastUpdated := some env.now
                feedback := "" }
              let r := finallyStep cancelledEnd st
              (r.1, [ReqEvent.start n, ReqEvent.settle n], r.2)
            else
              let st := { st with feedback := httpErrorMessage status }
              let r := finallyStep cancelledEnd st
              (r.1, [ReqEvent.start n, ReqEvent.settle n], r.2)

/-- An uninterrupted run of the self-scheduling loop: cycle `n` runs, and
cycle `n+1` runs only if cycle `n` registered a timer in its `finally`.
The cleanup flag stays `false` (nobody stops the loop), matching the
scenario of the single-flight property. -/
def runTrace : List CycleEnv → ℕ → ScanState → ScanState × List ReqEvent
  | [], _, st => (st, [])
  | env :: rest, n, st =>
      match runCycle n false false env st with
      | (st1, evs, some _) =>
          let r2 := runTrace rest (n + 1) st1
          (r2.1, evs ++ r2.2)
      | (st1, evs, none) => (st1, evs)

/-- The stop branch of the scanning effect (App.js lines 126-134), run when
`isScanning` turns false: clear the pending timer, abort the outstanding
request, null both refs, reset `isProcessing`. -/
inductive TeardownAction where
  | clearTimer
  | abortRequest (n : ℕ)
deriving Repr, DecidableEq

/-- Function `stopEffect` models App.js lines 126-134 (the effect cleanup of lines
182-190 performs the same teardown and additionally sets `cancelled`). -/
def stopEffect (st : ScanState) : ScanState × List TeardownAction :=
  let timerActs : List TeardownAction :=
    if st.loopTimer then [TeardownAction.clearTimer] else []
  let abortActs : List TeardownAction :=
    match st.abortCtrl with
    | some c => [TeardownAction.abortRequest c]
    | none => []
  ({ st with loopTimer := false, abortCtrl := none, isProcessing := false },
    timerActs ++ abortActs)

/-! ## Toggle (App.js lines 193-204) -/

/-- Feedback text when `API_URL` is falsy (App.js line 195). -/
def missingApiUrlMsg : String := "Missing VITE_RECOGNITION_API_URL in your .env file."

/-- Feedback text when the stream is not ready (App.js line 199). -/
def cameraNotReadyMsg : String := "Camera is not ready yet."

/-- JS truthiness of the `API_URL` env string: `undefined` and `""` are
falsy. -/
def jsTruthy : Option String → Bool
  | none => false
  | some s => !(s = "")

/-- Function `toggleScanning` (App.js lines 193-204). -/
def toggleScanning (apiUrl : Option String) (st : ScanState) : ScanState :=
  if !jsTruthy apiUrl then { st with feedback := missingApiUrlMsg }
  else if !st.streamReady then { st with feedback := cameraNotReadyMsg }
  else { st with feedback := "", isScanning := !st.isScanning }

/-! ## Helper lemmas -/

lemma captureScale_le_width (w h : ℕ) : captureScale w h ≤ 640 / (w : ℚ) := by
  unfold captureScale MAX_FRAME_WIDTH
  exact le_trans (min_le_right _ _) (min_le_left _ _)

lemma captureScale_le_height (w h : ℕ) : captureScale w h ≤ 640 / (h : ℚ) := by
  unfold captureScale MAX_FRAME_HEIGHT
  exact le_trans (min_le_right _ _) (min_le_right _ _)

lemma mul_captureScale_width_le (w h : ℕ) (hw : 0 < w) :
    (w : ℚ) * captureScale w h ≤ 640 := by
  have hw' : (0 : ℚ) < (w : ℚ) := by exact_mod_cast hw
  calc (w : ℚ) * captureScale w h
      ≤ (w : ℚ) * (640 / (w : ℚ)) :=
        mul_le_mul_of_nonneg_left (captureScale_le_width w h) (le_of_lt hw')
    _ = 640 := by field_simp

lemma mul_captureScale_height_le (w h : ℕ) (hh : 0 < h) :
    (h : ℚ) * captureScale w h ≤ 640 := by
  have hh' : (0 : ℚ) < (h : ℚ) := by exact_mod_cast hh
  calc (h : ℚ) * captureScale w h
      ≤ (h : ℚ) * (640 / (h : ℚ)) :=
        mul_le_mul_of_nonneg_left (captureScale_le_height w h) (le_of_lt hh')
    _ = 640 := by field_simp

lemma jsRound_le_of_le (q : ℚ) (b : ℤ) (h : q ≤ (b : ℚ)) : jsRound q ≤ b := by
  unfold jsRound
  have hlt : ⌊q + 1 / 2⌋ < b + 1 := by
    apply Int.floor_lt.mpr
    push_cast
    linarith
  omega

lemma jsRound_close (q : ℚ) : |((jsRound q : ℤ) : ℚ) - q| ≤ 1 / 2 := by
  unfold jsRound
  have h1 : ((⌊q + 1 / 2⌋ : ℤ) : ℚ) ≤ q + 1 / 2 := Int.floor_le _
  have h2 : q + 1 / 2 < ((⌊q + 1 / 2⌋ : ℤ) : ℚ) + 1 := Int.lt_floor_add_one _
  rw [abs_le]
  constructor <;> linarith

/-! ## Claim theorems -/

/-- C10: the status styling of a detection is a pure function of its
`status_code` alone with exactly two outcomes: `status_code` strictly equal
to the hard-coded `200` yields the emerald classification, and every other
value — including an absent/`null` code — yields the single sky
alternative. -/
theorem statusClasses_two_outcomes (code : Option ℤ) :
    (statusClasses code = emeraldClasses ↔ code = some 200) ∧
    (statusClasses code = skyClasses ↔ code ≠ some 200) ∧
    statusClasses none = skyClasses ∧
    emeraldClasses ≠ skyClasses ∧
    (statusClasses code = emeraldClasses ∨ statusClasses code = skyClasses) := by
  have hne : emeraldClasses ≠ skyClasses := by decide
  unfold statusClasses
  split
  · simp_all
  · simp_all [Ne.symm hne]

/-- C10 witness: code 200 is styled emerald, code 404 is styled sky. -/
theorem statusClasses_two_outcomes_witness :
    statusClasses (some 200) = emeraldClasses ∧
    statusClasses (some 404) = skyClasses :=
  ⟨(statusClasses_two_outcomes (some 200)).1.mpr rfl,
    (statusClasses_two_outcomes (some 404)).2.1.mpr (by decide)⟩

/-- C3: for every source with positive native dimensions `(w, h)`,
`captureFrame` computes `scale = min(1, 640/w, 640/h)` and target dimensions
`round(w*scale) × round(h*scale)`; the scale never exceeds 1, both encoded
dimensions are at most 640, and each target dimension is within 1/2 of the
exactly-scaled value (aspect ratio preserved within rounding). -/
theorem captureFrame_scaling (w h : ℕ) (hw : 0 < w) (hh : 0 < h) :
    captureScale w h = min 1 (min (640 / (w : ℚ)) (640 / (h : ℚ))) ∧
    captureScale w h ≤ 1 ∧
    targetWidth w h = jsRound ((w : ℚ) * captureScale w h) ∧
    targetHeight w h = jsRound ((h : ℚ) * captureScale w h) ∧
    targetWidth w h ≤ 640 ∧
    targetHeight w h ≤ 640 ∧
    |((targetWidth w h : ℤ) : ℚ) - (w : ℚ) * captureScale w h| ≤ 1 / 2 ∧
    |((targetHeight w h : ℤ) : ℚ) - (h : ℚ) * captureScale w h| ≤ 1 / 2 := by
  refine ⟨rfl, min_le_left _ _, rfl, rfl, ?_, ?_, jsRound_close _, jsRound_close _⟩
  · exact jsRound_le_of_le _ _ (by exact_mod_cast mul_captureScale_width_le w h hw)
  · exact jsRound_le_of_le _ _ (by exact_mod_cast mul_captureScale_height_le w h hh)

/-- C3 witness at native dimensions 1920×1080 (scale 1/3, target 640×360). -/
theorem captureFrame_scaling_witness :
    captureScale 1920 1080 = min 1 (min (640 / ((1920 : ℕ) : ℚ)) (640 / ((1080 : ℕ) : ℚ))) ∧
    captureScale 1920 1080 ≤ 1 ∧
    targetWidth 1920 1080 = jsRound (((1920 : ℕ) : ℚ) * captureScale 1920 1080) ∧
    targetHeight 1920 1080 = jsRound (((1080 : ℕ) : ℚ) * captureScale 1920 1080) ∧
    targetWidth 1920 1080 ≤ 640 ∧
    targetHeight 1920 1080 ≤ 640 ∧
    |((targetWidth 1920 1080 : ℤ) : ℚ) - ((1920 : ℕ) : ℚ) * captureScale 1920 1080| ≤ 1 / 2 ∧
    |((targetHeight 1920 1080 : ℤ) : ℚ) - ((1080 : ℕ) : ℚ) * captureScale 1920 1080| ≤ 1 / 2 :=
  captureFrame_scaling 1920 1080 (by norm_num) (by norm_num)

/-- C4: the overlay projection is a pure function returning the empty
sequence when either geometry dimension is zero or the batch is empty; a
detection without a box is skipped without failing the rest; every
remaining detection yields the fractional rect
`(xMin/width, yMin/height, (xMax-xMin)/width, (yMax-yMin)/height)`
expressed in percent; and geometry `{640, 480}` with box
`{64, 48, 192, 144}` yields `{left 10%, top 10%, width 20%, height 20%}`. -/
theorem overlay_projection (g : VideoSize) (m : DMatch) (ms : List DMatch) (b : Bbox) :
    (∀ l (h' : ℕ), boxes l ⟨0, h'⟩ = []) ∧
    (∀ l (w' : ℕ), boxes l ⟨w', 0⟩ = []) ∧
    boxes [] g = [] ∧
    (m.bbox = none → boxes (m :: ms) g = boxes ms g) ∧
    (m.bbox = some b →
      projectMatch g m = some
        { id := overlayKey m b
          label := m.entity.bind Entity.label
          style :=
            { left := b.x_min / (g.width : ℚ) * 100
              top := b.y_min / (g.height : ℚ) * 100
              width := (b.x_max - b.x_min) / (g.width : ℚ) * 100
              height := (b.y_max - b.y_min) / (g.height : ℚ) * 100 }
          status_code := m.status_code
          distance := m.distance }) ∧
    (boxes
        [{ id := some "f1", bbox := some ⟨64, 48, 192, 144⟩, entity := none,
           status_code := some 200, distance := none }] ⟨640, 480⟩).map
      (fun ob => (ob.style.left, ob.style.top, ob.style.width, ob.style.height))
      = [(10, 10, 20, 20)] := by
  refine ⟨?_, ?_, ?_, ?_, ?_, ?_⟩
  · intro l h'; simp [boxes]
  · intro l w'; simp [boxes]
  · unfold boxes; split <;> simp
  · intro hbb
    unfold boxes
    split
    · rfl
    · simp [List.filterMap_cons, projectMatch, hbb]
  · intro hbb
    simp [projectMatch, hbb]
  · simp only [boxes, List.filterMap_cons, List.filterMap_nil, projectMatch,
      overlayKey, List.map]
    norm_num

/-- C4 witness: a detection with a `null` box is skipped (the projection of
the one-element batch equals the projection of the empty batch). -/
theorem overlay_projection_witness :
    boxes [{ id := some "x", bbox := none, entity := none,
             status_code := none, distance := none }] ⟨640, 480⟩
      = boxes [] ⟨640, 480⟩ :=
  (overlay_projection ⟨640, 480⟩
    { id := some "x", bbox := none, entity := none,
      status_code := none, distance := none } [] ⟨0, 0, 0, 0⟩).2.2.2.1 rfl

/-- C9 counterexample: the recognition-log list key (App.js line 346) is
`match.id` with no defaulting, so a detection with no server id and box
corner `(5, 7)` gets an undefined log key rather than the derived key
`5-7` the claim promises — even though the overlay key does default. -/
theorem detection_key_counterexample :
    logKey { id := none, bbox := some ⟨5, 7, 20, 30⟩, entity := none,
             status_code := some 200, distance := none } = none ∧
    (projectMatch ⟨640, 480⟩
        { id := none, bbox := some ⟨5, 7, 20, 30⟩, entity := none,
          status_code := some 200, distance := none }).map OverlayBox.id
      = some (RenderKey.coords 5 7) ∧
    (none : Option String) ≠ some "5-7" := by
  refine ⟨rfl, ?_, by simp⟩
  simp [projectMatch, overlayKey]

/-- C9 (amended): the overlay key equals the server-supplied id when
present and otherwise the derived `xMin-yMin` key, while the
recognition-log list key is the raw server id with no default (undefined
when the id is absent). -/
theorem detection_key_defaulting (m : DMatch) (b : Bbox) :
    (∀ s, m.id = some s → overlayKey m b = RenderKey.server s) ∧
    (m.id = none → overlayKey m b = RenderKey.coords b.x_min b.y_min) ∧
    logKey m = m.id := by
  refine ⟨?_, ?_, rfl⟩
  · intro s hs; simp [overlayKey, hs]
  · intro hs; simp [overlayKey, hs]

/-- C9 witness: a detection with server id `"srv"` keeps it as overlay key. -/
theorem detection_key_defaulting_witness :
    overlayKey { id := some "srv", bbox := none, entity := none,
                 status_code := none, distance := none } ⟨1, 2, 3, 4⟩
      = RenderKey.server "srv" :=
  (detection_key_defaulting
    { id := some "srv", bbox := none, entity := none,
      status_code := none, distance := none } ⟨1, 2, 3, 4⟩).1 "srv" rfl

/-- A cycle whose state is not scanning makes no request at all (App.js
line 140 returns before the `try` block). -/
lemma runCycle_no_events_of_not_scanning (n : ℕ) (c₁ c₂ : Bool) (env : CycleEnv)
    (st : ScanState) (h : st.isScanning = false) :
    (runCycle n c₁ c₂ env st).2.1 = [] := by
  unfold runCycle
  simp [h]

/-- A non-array (or absent) `data` field degrades to the empty batch. -/
lemma matchesOfPayload_of_nonarray (payload : JValue)
    (h : ∀ xs, getData payload ≠ some (JValue.jarr xs)) :
    matchesOfPayload payload = [] := by
  unfold matchesOfPayload
  split
  · rename_i xs heq
    exact absurd heq (h xs)
  · rfl

/-- A concrete idle state shared by the witnesses below. -/
def idleState : ScanState :=
  { streamReady := true, isScanning := false, isProcessing := false,
    feedback := "", «matches» := [], videoSize := ⟨640, 480⟩,
    lastUpdated := none, latency := none, loopTimer := false,
    abortCtrl := none }

/-- A concrete running state shared by the witnesses below. -/
def scanningState : ScanState :=
  { idleState with isScanning := true }

/-- C6: toggling from Idle when the endpoint address is absent/empty or the
stream has not signaled readiness fails at the toggle boundary: feedback is
set to the corresponding user-facing message, the state stays not scanning,
and a non-scanning state makes zero network requests in any loop cycle. -/
theorem start_preconditions (apiUrl : Option String) (st : ScanState)
    (hidle : st.isScanning = false)
    (hbad : jsTruthy apiUrl = false ∨ st.streamReady = false) :
    (toggleScanning apiUrl st).isScanning = false ∧
    (toggleScanning apiUrl st).feedback ≠ "" ∧
    (jsTruthy apiUrl = false →
      (toggleScanning apiUrl st).feedback = missingApiUrlMsg) ∧
    (jsTruthy apiUrl = true → st.streamReady = false →
      (toggleScanning apiUrl st).feedback = cameraNotReadyMsg) ∧
    (∀ (n : ℕ) (c₁ c₂ : Bool) (env : CycleEnv),
      (runCycle n c₁ c₂ env (toggleScanning apiUrl st)).2.1 = []) := by
  have hmsg1 : missingApiUrlMsg ≠ "" := by decide
  have hmsg2 : cameraNotReadyMsg ≠ "" := by decide
  unfold toggleScanning
  rcases hu : jsTruthy apiUrl with _ | _
  · refine ⟨by simp [hidle], by simpa using hmsg1, fun _ => by simp, ?_, ?_⟩
    · intro hcontra; simp [hu] at hcontra
    · intro n c₁ c₂ env
      exact runCycle_no_events_of_not_scanning n c₁ c₂ env _ (by simp [hidle])
  · rcases hr : st.streamReady with _ | _
    · refine ⟨by simp [hidle], by simpa using hmsg2, fun hcontra => by simp [hu] at hcontra,
        fun _ _ => by simp, ?_⟩
      intro n c₁ c₂ env
      exact runCycle_no_events_of_not_scanning n c₁ c₂ env _ (by simp [hidle])
    · rcases hbad with hbad | hbad
      · rw [hu] at hbad; cases hbad
      · rw [hr] at hbad; cases hbad

/-- C6 witness: toggling with no configured endpoint keeps the state idle
and surfaces the missing-configuration message. -/
theorem start_preconditions_witness :
    (toggleScanning none idleState).isScanning = false ∧
    (toggleScanning none idleState).feedback = missingApiUrlMsg :=
  ⟨(start_preconditions none idleState rfl (Or.inl rfl)).1,
    (start_preconditions none idleState rfl (Or.inl rfl)).2.2.1 rfl⟩

/-- C8: the Running-to-Idle teardown clears the pending timer, aborts and
nulls the outstanding request handle, and resets the processing sub-flag;
afterwards no timer handle and no request handle remain live. -/
theorem stop_transition (st : ScanState) :
    (stopEffect st).1.loopTimer = false ∧
    (stopEffect st).1.abortCtrl = none ∧
    (stopEffect st).1.isProcessing = false ∧
    (∀ c, st.abortCtrl = some c →
      TeardownAction.abortRequest c ∈ (stopEffect st).2) ∧
    (st.loopTimer = true → TeardownAction.clearTimer ∈ (stopEffect st).2) := by
  refine ⟨rfl, rfl, rfl, ?_, ?_⟩
  · intro c hc
    unfold stopEffect
    simp [hc]
  · intro ht
    unfold stopEffect
    simp [ht]

/-- C8 witness: stopping a running state with a live timer and an
outstanding request number 3 aborts that request. -/
theorem stop_transition_witness :
    ({ scanningState with loopTimer := true, abortCtrl := some 3 } : ScanState).abortCtrl
        = some 3 ∧
    TeardownAction.abortRequest 3 ∈
      (stopEffect { scanningState with loopTimer := true, abortCtrl := some 3 }).2 :=
  ⟨rfl, (stop_transition
    { scanningState with loopTimer := true, abortCtrl := some 3 }).2.2.2.1 3 rfl⟩

/-- C2: a cycle whose request rejects with `AbortError` leaves the
detection batch, the user-visible feedback text, the last-updated
timestamp, and the latency unchanged (the `catch` returns before
`setFeedback`, and the success updates were never reached). -/
theorem cancellation_suppression (n : ℕ) (c₂ : Bool) (env : CycleEnv)
    (st : ScanState) (w h : ℕ)
    (hscan : st.isScanning = true)
    (hcap : env.capture = CaptureOutcome.ok w h)
    (hfetch : env.fetch = FetchOutcome.abortError) :
    (runCycle n false c₂ env st).1.«matches» = st.«matches» ∧
    (runCycle n false c₂ env st).1.feedback = st.feedback ∧
    (runCycle n false c₂ env st).1.lastUpdated = st.lastUpdated ∧
    (runCycle n false c₂ env st).1.latency = st.latency := by
  unfold runCycle finallyStep
  rw [hcap, hfetch]
  simp [hscan]
  split <;> simp

/-- C2 witness: an aborted cycle on a concrete running state changes none
of batch, feedback, timestamp, latency. -/
theorem cancellation_suppression_witness :
    (runCycle 0 false true
        { capture := CaptureOutcome.ok 640 480, fetch := FetchOutcome.abortError,
          elapsed := 10, now := 7 } scanningState).1.«matches»
        = scanningState.«matches» ∧
    (runCycle 0 false true
        { capture := CaptureOutcome.ok 640 480, fetch := FetchOutcome.abortError,
          elapsed := 10, now := 7 } scanningState).1.feedback
        = scanningState.feedback ∧
    (runCycle 0 false true
        { capture := CaptureOutcome.ok 640 480, fetch := FetchOutcome.abortError,
          elapsed := 10, now := 7 } scanningState).1.lastUpdated
        = scanningState.lastUpdated ∧
    (runCycle 0 false true
        { capture := CaptureOutcome.ok 640 480, fetch := FetchOutcome.abortError,
          elapsed := 10, now := 7 } scanningState).1.latency
        = scanningState.latency :=
  cancellation_suppression 0 true
    { capture := CaptureOutcome.ok 640 480, fetch := FetchOutcome.abortError,
      elapsed := 10, now := 7 } scanningState 640 480 rfl rfl rfl

/-- C7: every cycle that fails with a non-cancelled error — a capture
failure (`NotReady`/`EncodingUnavailable`), a network transport error, or
a non-ok HTTP response — clears the processing sub-flag, surfaces that
failure's message as feedback (the thrown HTTP message spells out the
status code), leaves the loop scanning, and registers exactly one
follow-up timer with the fixed `POLL_DELAY_MS` delay. -/
theorem per_cycle_failure_recovery (n : ℕ) (env : CycleEnv) (st : ScanState)
    (hscan : st.isScanning = true) :
    (∀ msg, env.capture = CaptureOutcome.failure msg →
      (runCycle n false false env st).1.isProcessing = false ∧
      (runCycle n false false env st).1.feedback = msg ∧
      (runCycle n false false env st).1.isScanning = true ∧
      (runCycle n false false env st).2.2 = some POLL_DELAY_MS) ∧
    (∀ w h msg, env.capture = CaptureOutcome.ok w h →
      env.fetch = FetchOutcome.networkError msg →
      (runCycle n false false env st).1.isProcessing = false ∧
      (runCycle n false false env st).1.feedback = msg ∧
      (runCycle n false false env st).1.isScanning = true ∧
      (runCycle n false false env st).2.2 = some POLL_DELAY_MS) ∧
    (∀ w h status payload, env.capture = CaptureOutcome.ok w h →
      env.fetch = FetchOutcome.response status payload →
      statusOk status = false →
      (runCycle n false false env st).1.isProcessing = false ∧
      (runCycle n false false env st).1.feedback = httpErrorMessage status ∧
      (runCycle n false false env st).1.isScanning = true ∧
      (runCycle n false false env st).2.2 = some POLL_DELAY_MS) := by
  refine ⟨?_, ?_, ?_⟩
  · intro msg hcap
    unfold runCycle finallyStep
    rw [hcap]
    simp [hscan]
  · intro w h msg hcap hfetch
    unfold runCycle finallyStep
    rw [hcap, hfetch]
    simp [hscan]
  · intro w h status payload hcap hfetch hbad
    unfold runCycle finallyStep
    rw [hcap, hfetch]
    simp [hscan, hbad]

/-- C7 witness: HTTP 503 on a concrete running state surfaces the
`Recognition request failed with 503` message and schedules one cycle
after 350 ms, and a concrete network-error cycle surfaces its transport
message and likewise schedules exactly one follow-up cycle. -/
theorem per_cycle_failure_recovery_witness :
    ((runCycle 0 false false
        { capture := CaptureOutcome.ok 640 480,
          fetch := FetchOutcome.response 503 JValue.jnull,
          elapsed := 12, now := 9 } scanningState).1.isProcessing = false ∧
      (runCycle 0 false false
        { capture := CaptureOutcome.ok 640 480,
          fetch := FetchOutcome.response 503 JValue.jnull,
          elapsed := 12, now := 9 } scanningState).1.feedback
        = httpErrorMessage 503 ∧
      (runCycle 0 false false
        { capture := CaptureOutcome.ok 640 480,
          fetch := FetchOutcome.response 503 JValue.jnull,
          elapsed := 12, now := 9 } scanningState).1.isScanning = true ∧
      (runCycle 0 false false
        { capture := CaptureOutcome.ok 640 480,
          fetch := FetchOutcome.response 503 JValue.jnull,
          elapsed := 12, now := 9 } scanningState).2.2 = some POLL_DELAY_MS) ∧
    ((runCycle 0 false false
        { capture := CaptureOutcome.ok 640 480,
          fetch := FetchOutcome.networkError "Failed to fetch",
          elapsed := 3, now := 4 } scanningState).1.isProcessing = false ∧
      (runCycle 0 false false
        { capture := CaptureOutcome.ok 640 480,
          fetch := FetchOutcome.networkError "Failed to fetch",
          elapsed := 3, now := 4 } scanningState).1.feedback
        = "Failed to fetch" ∧
      (runCycle 0 false false
        { capture := CaptureOutcome.ok 640 480,
          fetch := FetchOutcome.networkError "Failed to fetch",
          elapsed := 3, now := 4 } scanningState).1.isScanning = true ∧
      (runCycle 0 false false
        { capture := CaptureOutcome.ok 640 480,
          fetch := FetchOutcome.networkError "Failed to fetch",
          elapsed := 3, now := 4 } scanningState).2.2 = some POLL_DELAY_MS) :=
  ⟨(per_cycle_failure_recovery 0
      { capture := CaptureOutcome.ok 640 480,
        fetch := FetchOutcome.response 503 JValue.jnull,
        elapsed := 12, now := 9 } scanningState rfl).2.2
      640 480 503 JValue.jnull rfl rfl (by decide),
    (per_cycle_failure_recovery 0
      { capture := CaptureOutcome.ok 640 480,
        fetch := FetchOutcome.networkError "Failed to fetch",
        elapsed := 3, now := 4 } scanningState rfl).2.1
      640 480 "Failed to fetch" rfl rfl⟩

/-- C5: a successful response whose `data` field is not an array (absent,
`null`, a string, anything else) yields an empty detection batch and the
cycle still counts as a success: feedback is cleared, and latency and the
last-updated timestamp are set. -/
theorem malformed_batch_tolerance (payload : JValue) (n : ℕ) (env : CycleEnv)
    (st : ScanState) (w h status : ℕ)
    (hdata : ∀ xs, getData payload ≠ some (JValue.jarr xs))
    (hscan : st.isScanning = true)
    (hcap : env.capture = CaptureOutcome.ok w h)
    (hfetch : env.fetch = FetchOutcome.response status payload)
    (hok : statusOk status = true) :
    (runCycle n false false env st).1.«matches» = [] ∧
    (runCycle n false false env st).1.feedback = "" ∧
    (runCycle n false false env st).1.latency = some env.elapsed ∧
    (runCycle n false false env st).1.lastUpdated = some env.now := by
  unfold runCycle finallyStep
  rw [hcap, hfetch]
  simp [hscan, hok, matchesOfPayload_of_nonarray payload hdata]

/-- C5 witness: `data: null` on HTTP 200 yields the empty batch and a
successful cycle. -/
theorem malformed_batch_tolerance_witness :
    (runCycle 0 false false
        { capture := CaptureOutcome.ok 640 480,
          fetch := FetchOutcome.response 200 (JValue.jobj [("data", JValue.jnull)]),
          elapsed := 5, now := 42 } scanningState).1.«matches» = [] ∧
    (runCycle 0 false false
        { capture := CaptureOutcome.ok 640 480,
          fetch := FetchOutcome.response 200 (JValue.jobj [("data", JValue.jnull)]),
          elapsed := 5, now := 42 } scanningState).1.feedback = "" ∧
    (runCycle 0 false false
        { capture := CaptureOutcome.ok 640 480,
          fetch := FetchOutcome.response 200 (JValue.jobj [("data", JValue.jnull)]),
          elapsed := 5, now := 42 } scanningState).1.latency = some (5 : ℚ) ∧
    (runCycle 0 false false
        { capture := CaptureOutcome.ok 640 480,
          fetch := FetchOutcome.response 200 (JValue.jobj [("data", JValue.jnull)]),
          elapsed := 5, now := 42 } scanningState).1.lastUpdated = some 42 :=
  malformed_batch_tolerance (JValue.jobj [("data", JValue.jnull)]) 0
    { capture := CaptureOutcome.ok 640 480,
      fetch := FetchOutcome.response 200 (JValue.jobj [("data", JValue.jnull)]),
      elapsed := 5, now := 42 } scanningState 640 480 200
    (by intro xs h; simp [getData, lookupField] at h) rfl rfl rfl (by decide)

/-! ## Single-flight analysis of the event trace -/

/-- Recognizer for request-start events. -/
def isStartEv : ReqEvent → Bool
  | ReqEvent.start _ => true
  | ReqEvent.settle _ => false

/-- Recognizer for request-settle events. -/
def isSettleEv : ReqEvent → Bool
  | ReqEvent.settle _ => true
  | ReqEvent.start _ => false

/-- Number of requests issued in a trace. -/
def numStarts (evs : List ReqEvent) : ℕ := evs.countP isStartEv

/-- Number of requests settled in a trace. -/
def numSettles (evs : List ReqEvent) : ℕ := evs.countP isSettleEv

/-- At most one request is outstanding at any instant: along every prefix
of the trace, settles never exceed starts, and starts exceed settles by at
most one. -/
def SingleFlight (evs : List ReqEvent) : Prop :=
  ∀ p, p <+: evs → numSettles p ≤ numStarts p ∧ numStarts p ≤ numSettles p + 1

/-- The cycle numbers of the start events, in trace order. -/
def startIdxs (evs : List ReqEvent) : List ℕ :=
  evs.filterMap fun e =>
    match e with
    | ReqEvent.start m => some m
    | ReqEvent.settle _ => none

/-- Shape of the traces the loop produces: a concatenation of complete
`start n, settle n` blocks with strictly increasing cycle numbers; a cycle
that issues no request contributes nothing but consumes its number. -/
inductive CycleBlocks : ℕ → List ReqEvent → Prop where
  | nil (n : ℕ) : CycleBlocks n []
  | skip (n : ℕ) (evs : List ReqEvent) :
      CycleBlocks (n + 1) evs → CycleBlocks n evs
  | block (n : ℕ) (evs : List ReqEvent) :
      CycleBlocks (n + 1) evs →
      CycleBlocks n (ReqEvent.start n :: ReqEvent.settle n :: evs)

/-- One cycle emits either no events or the complete pair
`start n, settle n`: a request issued by a cycle settles within that
cycle, before the `finally` block can schedule a successor. -/
lemma runCycle_events_shape (n : ℕ) (c₁ c₂ : Bool) (env : CycleEnv)
    (st : ScanState) :
    (runCycle n c₁ c₂ env st).2.1 = [] ∨
    (runCycle n c₁ c₂ env st).2.1 = [ReqEvent.start n, ReqEvent.settle n] := by
  unfold runCycle
  split
  · left; rfl
  · cases env.capture with
    | failure msg => left; rfl
    | ok w h =>
        cases env.fetch with
        | abortError => right; rfl
        | networkError msg => right; rfl
        | response status payload =>
            dsimp only
            split
            · right; rfl
            · right; rfl

/-- Every trace of the self-scheduling loop is a sequence of complete,
increasingly numbered request blocks. -/
lemma runTrace_blocks (script : List CycleEnv) (n : ℕ) (st : ScanState) :
    CycleBlocks n (runTrace script n st).2 := by
  induction script generalizing n st with
  | nil => exact CycleBlocks.nil n
  | cons env rest ih =>
      have hsh := runCycle_events_shape n false false env st
      unfold runTrace
      rcases hrc : runCycle n false false env st with ⟨st1, evs, sched⟩
      rw [hrc] at hsh
      simp only at hsh
      cases sched with
      | some d =>
          rcases hsh with hsh | hsh <;> subst hsh
          · simpa using CycleBlocks.skip n _ (ih (n + 1) st1)
          · simpa using CycleBlocks.block n _ (ih (n + 1) st1)
      | none =>
          rcases hsh with hsh | hsh <;> subst hsh
          · exact CycleBlocks.nil n
          · exact CycleBlocks.block n [] (CycleBlocks.nil (n + 1))

/-- Block-shaped traces satisfy the prefix-counting single-flight bound. -/
lemma CycleBlocks.singleFlight {n : ℕ} {evs : List ReqEvent}
    (h : CycleBlocks n evs) : SingleFlight evs := by
  induction h with
  | nil n =>
      intro p hp
      rw [List.prefix_nil.mp hp]
      exact ⟨le_refl _, Nat.le_succ _⟩
  | skip n evs h ih => exact ih
  | block n evs h ih =>
      intro p hp
      match p, hp with
      | [], _ => exact ⟨le_refl _, Nat.le_succ _⟩
      | e :: p', hp =>
          obtain ⟨he, hp'⟩ := List.cons_prefix_cons.mp hp
          subst he
          match p', hp' with
          | [], _ =>
              simp [numStarts, numSettles, List.countP_cons, isStartEv, isSettleEv]
          | e' :: p'', hp' =>
              obtain ⟨he', hp''⟩ := List.cons_prefix_cons.mp hp'
              subst he'
              obtain ⟨h1, h2⟩ := ih p'' hp''
              simp only [numStarts, numSettles, List.countP_cons, isStartEv,
                isSettleEv] at h1 h2 ⊢
              omega

/-- In a block-shaped trace the start indices are strictly increasing and
bounded below by the first cycle number. -/
lemma CycleBlocks.startIdxs_sorted {n : ℕ} {evs : List ReqEvent}
    (h : CycleBlocks n evs) :
    (∀ m ∈ startIdxs evs, n ≤ m) ∧ List.Pairwise (· < ·) (startIdxs evs) := by
  induction h with
  | nil n => simp [startIdxs]
  | skip k evs h ih =>
      exact ⟨fun m hm => le_trans (Nat.le_succ k) (ih.1 m hm), ih.2⟩
  | block k evs h ih =>
      have hidx : startIdxs (ReqEvent.start k :: ReqEvent.settle k :: evs)
          = k :: startIdxs evs := by
        simp [startIdxs]
      rw [hidx]
      refine ⟨?_, ?_⟩
      · intro m hm
        rcases List.mem_cons.mp hm with rfl | hm'
        · exact le_refl m
        · exact le_trans (Nat.le_succ k) (ih.1 m hm')
      · exact List.pairwise_cons.mpr
          ⟨fun m hm => lt_of_lt_of_le (Nat.lt_succ_self k) (ih.1 m hm), ih.2⟩

/-- In a block-shaped trace every issued request settles. -/
lemma CycleBlocks.start_settles {n : ℕ} {evs : List ReqEvent}
    (h : CycleBlocks n evs) :
    ∀ m, ReqEvent.start m ∈ evs → ReqEvent.settle m ∈ evs := by
  induction h with
  | nil n => simp
  | skip k evs h ih => exact ih
  | block k evs h ih =>
      intro m hm
      rcases List.mem_cons.mp hm with heq | hm'
      · cases heq
        exact List.mem_cons_of_mem _ (List.mem_cons_self _ _)
      · rcases List.mem_cons.mp hm' with heq | hm''
        · cases heq
        · exact List.mem_cons_of_mem _ (List.mem_cons_of_mem _ (ih m hm''))

/-- C1: across any uninterrupted execution of the poll loop, at most one
recognition request is outstanding at any instant (prefix counting), the
requests are issued in strictly increasing cycle order (so detection
batches are applied in submission order and an older response can never
overwrite a newer one), and every issued request is fully settled within
the trace — cycle `N` settles before cycle `N+1` starts. -/
theorem single_flight (script : List CycleEnv) (st : ScanState) :
    SingleFlight (runTrace script 0 st).2 ∧
    List.Pairwise (· < ·) (startIdxs (runTrace script 0 st).2) ∧
    (∀ m, ReqEvent.start m ∈ (runTrace script 0 st).2 →
      ReqEvent.settle m ∈ (runTrace script 0 st).2) := by
  have h := runTrace_blocks script 0 st
  exact ⟨h.singleFlight, h.startIdxs_sorted.2, h.start_settles⟩

/-- C1 witness: in the two-cycle trace where both fetches answer HTTP 200,
the prefix that has issued request 0 but not yet settled it has exactly one
outstanding request, and request 0 settles in the trace. -/
theorem single_flight_witness :
    (numSettles [ReqEvent.start 0] ≤ numStarts [ReqEvent.start 0] ∧
      numStarts [ReqEvent.start 0] ≤ numSettles [ReqEvent.start 0] + 1) ∧
    ReqEvent.settle 0 ∈
      (runTrace
        [{ capture := CaptureOutcome.ok 640 480,
           fetch := FetchOutcome.response 200 (JValue.jobj [("data", JValue.jarr [])]),
           elapsed := 10, now := 7 },
         { capture := CaptureOutcome.ok 640 480,
           fetch := FetchOutcome.response 200 (JValue.jobj [("data", JValue.jarr [])]),
           elapsed := 10, now := 8 }] 0 scanningState).2 :=
  ⟨(single_flight
      [{ capture := CaptureOutcome.ok 640 480,
         fetch := FetchOutcome.response 200 (JValue.jobj [("data", JValue.jarr [])]),
         elapsed := 10, now := 7 },
       { capture := CaptureOutcome.ok 640 480,
         fetch := FetchOutcome.response 200 (JValue.jobj [("data", JValue.jarr [])]),
         elapsed := 10, now := 8 }] scanningState).1
      [ReqEvent.start 0]
      ⟨[ReqEvent.settle 0, ReqEvent.start 1, ReqEvent.settle 1], rfl⟩,
    (single_flight
      [{ capture := CaptureOutcome.ok 640 480,
         fetch := FetchOutcome.response 200 (JValue.jobj [("data", JValue.jarr [])]),
         elapsed := 10, now := 7 },
       { capture := CaptureOutcome.ok 640 480,
         fetch := FetchOutcome.response 200 (JValue.jobj [("data", JValue.jarr [])]),
         elapsed := 10, now := 8 }] scanningState).2.2 0 (by decide)⟩

end FaceRec
